import Mathlib

/-!
Shallow embedding of the `circuit-breaker` library: the rolling statistics
window (`Status`, from `src/status.ts`), the option population performed by the
`CircuitBreaker` constructor, and the breaker state machine with its per-call
execution wrapper (`src/circuit.ts`).  Node's event emitter is synchronous, so
emitting an event is modelled as appending the event to a log and immediately
applying the effects of the listeners registered in the constructor.
-/

/-- One bucket of the rolling statistics window (`StatusBucket` plus the
`isCircuitBreakerOpen` flag set by `Status.open`/`Status.close`). -/
structure StatusBucket where
  failures : Nat
  successes : Nat
  rejects : Nat
  fires : Nat
  timeouts : Nat
  isCircuitBreakerOpen : Bool
deriving DecidableEq

/-- The five numeric event kinds counted by a bucket. -/
inductive EventKind where
  | failures
  | successes
  | rejects
  | fires
  | timeouts
deriving DecidableEq

/-- Source class `Status`: the rolling statistical window.  `window` lists the buckets with
the current (head) bucket first, as in the `WINDOW` array. -/
structure Status where
  window : List StatusBucket
deriving DecidableEq

/-- Source method `bucket()`: a freshly created, zeroed bucket. -/
def Status.emptyBucket : StatusBucket :=
  { failures := 0, successes := 0, rejects := 0, fires := 0, timeouts := 0,
    isCircuitBreakerOpen := false }

/-- The `Status` constructor primes the window with `BUCKETS = 10` buckets. -/
def Status.new : Status :=
  { window := List.replicate 10 Status.emptyBucket }

/-- Increment one named field of a bucket. -/
def StatusBucket.incr (b : StatusBucket) : EventKind → StatusBucket
  | .failures => { b with failures := b.failures + 1 }
  | .successes => { b with successes := b.successes + 1 }
  | .rejects => { b with rejects := b.rejects + 1 }
  | .fires => { b with fires := b.fires + 1 }
  | .timeouts => { b with timeouts := b.timeouts + 1 }

/-- Source method `increment(property)`: add 1 to the named field of the head bucket
(`this[WINDOW][0][property]++`). -/
def Status.increment (s : Status) (k : EventKind) : Status :=
  match s.window with
  | [] => s
  | b :: rest => { window := b.incr k :: rest }

/-- Source method `open()`: switch the head bucket's `isCircuitBreakerOpen` flag on.
(The source method is named `open`, a Lean keyword.) -/
def Status.open_ (s : Status) : Status :=
  match s.window with
  | [] => s
  | b :: rest => { window := { b with isCircuitBreakerOpen := true } :: rest }

/-- Source method `close()`: switch the head bucket's `isCircuitBreakerOpen` flag off. -/
def Status.close (s : Status) : Status :=
  match s.window with
  | [] => s
  | b :: rest => { window := { b with isCircuitBreakerOpen := false } :: rest }

/-- Source method `nextBucket()`: pop the tail bucket and unshift a fresh zero bucket at the
head of the window. -/
def Status.nextBucket (s : Status) : Status :=
  { window := Status.emptyBucket :: s.window.dropLast }

/-- The field-wise totals returned by the `stats` getter (the five numeric
counters summed across the window). -/
structure StatusTotals where
  failures : Nat
  successes : Nat
  rejects : Nat
  fires : Nat
  timeouts : Nat
deriving DecidableEq

/-- One step of the `reduce` in the `stats` getter: add a bucket's numeric
counters onto the accumulator. -/
def StatusTotals.addBucket (acc : StatusTotals) (b : StatusBucket) : StatusTotals :=
  { failures := acc.failures + b.failures,
    successes := acc.successes + b.successes,
    rejects := acc.rejects + b.rejects,
    fires := acc.fires + b.fires,
    timeouts := acc.timeouts + b.timeouts }

/-- Source getter `stats`: reduce over the window starting from a zeroed accumulator. -/
def Status.stats (s : Status) : StatusTotals :=
  s.window.foldl StatusTotals.addBucket
    { failures := 0, successes := 0, rejects := 0, fires := 0, timeouts := 0 }

/-- A JavaScript number as far as the constructor's option handling observes
it: a finite value (rational) or `NaN`. -/
inductive JSNum where
  | num (q : ℚ)
  | nan
deriving DecidableEq

/-- JavaScript truthiness of a number: `0` and `NaN` are falsy. -/
def JSNum.truthy : JSNum → Bool
  | .num q => decide (q ≠ 0)
  | .nan => false

/-- JavaScript `Number.isInteger`. -/
def JSNum.isInteger : JSNum → Bool
  | .num q => decide (q.den = 1)
  | .nan => false

/-- The finite value of a number (`0` for `NaN`; only used under truthiness). -/
def JSNum.toQ : JSNum → ℚ
  | .num q => q
  | .nan => 0

/-- The integer value of a number (only used under `Number.isInteger`). -/
def JSNum.toInt : JSNum → Int
  | .num q => q.num
  | .nan => 0

/-- The `timeout` option: absent, the literal `false`, or a number. -/
inductive TimeoutOption where
  | undef
  | falseLit
  | num (v : JSNum)
deriving DecidableEq

/-- Source interface `CircuitBreakerOptions` as passed to the constructor (`none` = absent). -/
structure CircuitBreakerOptions where
  timeout : TimeoutOption
  resetTimeout : Option JSNum
  maxFailures : Option JSNum
  debug : Option Bool
deriving DecidableEq

/-- The populated `timeout` option: disabled (`false`) or a duration. -/
inductive TimeoutSetting where
  | disabled
  | ms (q : ℚ)
deriving DecidableEq

/-- Truthiness of the populated `timeout` (the `if (this.options.timeout)`
test in `call`). -/
def TimeoutSetting.truthy : TimeoutSetting → Bool
  | .disabled => false
  | .ms q => decide (q ≠ 0)

/-- The options after the constructor populated them. -/
structure PopulatedOptions where
  timeout : TimeoutSetting
  resetTimeout : ℚ
  maxFailures : Int
  debug : Bool
deriving DecidableEq

/-- Lines 72-78 of `circuit.ts`:
`timeout = options.timeout === false ? false : options.timeout || 10000`;
`resetTimeout = options.resetTimeout || 30000`;
`maxFailures = Number.isInteger(options.maxFailures) ? options.maxFailures : 10`;
`debug = !!options.debug`. -/
def populateOptions (o : CircuitBreakerOptions) : PopulatedOptions :=
  { timeout :=
      match o.timeout with
      | .falseLit => .disabled
      | .undef => .ms 10000
      | .num v => if v.truthy then .ms v.toQ else .ms 10000,
    resetTimeout :=
      match o.resetTimeout with
      | none => 30000
      | some v => if v.truthy then v.toQ else 30000,
    maxFailures :=
      match o.maxFailures with
      | none => 10
      | some v => if v.isInteger then v.toInt else 10,
    debug := o.debug.getD false }

/-- The three breaker states (`CLOSED`, `OPEN`, `HALF_OPEN` symbols). -/
inductive BreakerState where
  | CLOSED
  | OPEN
  | HALF_OPEN
deriving DecidableEq

/-- The events the breaker emits.  (`open` and `close` are Lean keywords, so
those events are named `openEv` and `closeEv` here.) -/
inductive CBEvent where
  | fire
  | success
  | failure
  | timeout
  | reject
  | openEv
  | closeEv
  | halfOpen
deriving DecidableEq

/-- The breaker: state, `PENDING_CLOSE` flag, its `Status`, whether the
cool-down (`RESET_TIMEOUT`) timer is armed, the populated options, and the
chronological log of emitted events. -/
structure CircuitBreaker where
  state : BreakerState
  pendingClose : Bool
  status : Status
  resetTimerArmed : Bool
  options : PopulatedOptions
  events : List CBEvent
deriving DecidableEq

/-- Construction: populated options, a fresh `Status`, initial state `CLOSED`,
`PENDING_CLOSE` false, no timer armed, nothing emitted yet. -/
def CircuitBreaker.new (o : CircuitBreakerOptions) : CircuitBreaker :=
  { state := .CLOSED, pendingClose := false, status := Status.new,
    resetTimerArmed := false, options := populateOptions o, events := [] }

/-- Emit `"fire"`: log the event; its listener increments `fires`. -/
def CircuitBreaker.emitFire (cb : CircuitBreaker) : CircuitBreaker :=
  { cb with events := cb.events ++ [.fire], status := cb.status.increment .fires }

/-- Emit `"reject"`: log the event; its listener increments `rejects`. -/
def CircuitBreaker.emitReject (cb : CircuitBreaker) : CircuitBreaker :=
  { cb with events := cb.events ++ [.reject], status := cb.status.increment .rejects }

/-- Emit `"failure"`: log the event; its listener increments `failures`. -/
def CircuitBreaker.emitFailure (cb : CircuitBreaker) : CircuitBreaker :=
  { cb with events := cb.events ++ [.failure], status := cb.status.increment .failures }

/-- Emit `"timeout"`: log the event; its listener increments `timeouts`. -/
def CircuitBreaker.emitTimeout (cb : CircuitBreaker) : CircuitBreaker :=
  { cb with events := cb.events ++ [.timeout], status := cb.status.increment .timeouts }

/-- Source method `close()`: if the state is not `CLOSED`, clear the reset timer, move to
`CLOSED`, clear `PENDING_CLOSE` and emit `"close"` (whose listener runs
`Status.close`).  Otherwise do nothing. -/
def CircuitBreaker.close (cb : CircuitBreaker) : CircuitBreaker :=
  if cb.state = .CLOSED then cb
  else
    { cb with
      resetTimerArmed := false, state := .CLOSED, pendingClose := false,
      events := cb.events ++ [.closeEv], status := cb.status.close }

/-- Source method `open()`: if the state is not `OPEN`, move to `OPEN`, clear
`PENDING_CLOSE` and emit `"open"` (whose listener runs `Status.open` and
`startResetTimer`).  Otherwise do nothing.  (The source method is named
`open`, a Lean keyword.) -/
def CircuitBreaker.open_ (cb : CircuitBreaker) : CircuitBreaker :=
  if cb.state = .OPEN then cb
  else
    { cb with
      state := .OPEN, pendingClose := false,
      events := cb.events ++ [.openEv], status := cb.status.open_,
      resetTimerArmed := true }

/-- Emit `"success"`: log the event; its listener increments `successes` and,
if the breaker is half-open, calls `close()`. -/
def CircuitBreaker.emitSuccess (cb : CircuitBreaker) : CircuitBreaker :=
  let cb1 : CircuitBreaker :=
    { cb with events := cb.events ++ [.success], status := cb.status.increment .successes }
  if cb1.state = .HALF_OPEN then cb1.close else cb1

/-- Source method `fail()`: emit `"failure"`, then read `stats` and call `open()` when
`stats.failures >= options.maxFailures || this.halfOpen`. -/
def CircuitBreaker.fail (cb : CircuitBreaker) : CircuitBreaker :=
  let cb1 := cb.emitFailure
  if cb1.options.maxFailures ≤ (cb1.status.stats.failures : Int) ∨ cb1.state = .HALF_OPEN
  then cb1.open_ else cb1

/-- The callback of `startResetTimer`: after `resetTimeout` the breaker moves
to `HALF_OPEN`, sets `PENDING_CLOSE` and emits `"halfOpen"` (no listener). -/
def CircuitBreaker.resetTimerFires (cb : CircuitBreaker) : CircuitBreaker :=
  { cb with
    state := .HALF_OPEN, pendingClose := true, resetTimerArmed := false,
    events := cb.events ++ [.halfOpen] }

/-- Errors a call can be rejected with: the two built errors
(`EOPENBREAKER`, `ETIMEDOUT`) and arbitrary errors produced by the guarded
operation itself, identified abstractly. -/
inductive JSError where
  | breakerOpen
  | timedOut
  | external (id : Nat)
deriving DecidableEq

/-- How a single permitted call plays out, encoding the race in `call`:
the operation settles first (with a value or an error), the timeout clock
fires first (the operation's later settlement, if any, is in `late`), or the
action throws synchronously. -/
inductive CallOutcome where
  | opSuccess
  | opFailure (e : JSError)
  | timeoutFirst (late : Option Bool)
  | syncThrow (e : JSError)
deriving DecidableEq

/-- The settled state of the promise `call` returns. -/
inductive CallResult where
  | resolved
  | rejected (e : JSError)
deriving DecidableEq

/-- Everything observable about one `call`: the breaker afterwards, the
promise result, whether the per-call timeout clock was started, whether the
guarded operation was invoked, and whether `clearTimeout` ran on the
per-call clock. -/
structure CallReturn where
  breaker : CircuitBreaker
  result : CallResult
  timerStarted : Bool
  opInvoked : Bool
  timerCleared : Bool
deriving DecidableEq

/-- A timeout-first outcome is only possible when the timeout clock was
actually started, i.e. when the populated `timeout` option is truthy. -/
def validOutcome (cb : CircuitBreaker) : CallOutcome → Bool
  | .timeoutFirst _ => cb.options.timeout.truthy
  | _ => true

/-- Source method `call`: emit `"fire"`; if the breaker is neither closed nor half-open,
emit `"reject"` and reject with `EOPENBREAKER` without invoking the action.
Otherwise clear `PENDING_CLOSE`, start the timeout clock when the `timeout`
option is truthy, invoke the action and settle according to the race:
a settlement of the operation first resolves or runs `handleError`
(`clearTimeout`, `fail`, reject with the original error); a timeout first
emits `"timeout"` then runs `handleError` with `ETIMEDOUT`, and the
operation's later settlement is suppressed by the `timeoutError` flag;
a synchronous throw runs `handleError` with the thrown error. -/
def CircuitBreaker.call (cb : CircuitBreaker) (outcome : CallOutcome) : CallReturn :=
  let cb1 := cb.emitFire
  if ¬(cb1.state = .CLOSED) ∧ ¬(cb1.state = .HALF_OPEN) then
    { breaker := cb1.emitReject, result := .rejected .breakerOpen,
      timerStarted := false, opInvoked := false, timerCleared := false }
  else
    let cb2 : CircuitBreaker := { cb1 with pendingClose := false }
    let started := cb2.options.timeout.truthy
    match outcome with
    | .opSuccess =>
      { breaker := cb2.emitSuccess, result := .resolved,
        timerStarted := started, opInvoked := true, timerCleared := true }
    | .opFailure e =>
      { breaker := cb2.fail, result := .rejected e,
        timerStarted := started, opInvoked := true, timerCleared := true }
    | .timeoutFirst _ =>
      { breaker := cb2.emitTimeout.fail, result := .rejected .timedOut,
        timerStarted := started, opInvoked := true, timerCleared := true }
    | .syncThrow e =>
      { breaker := cb2.fail, result := .rejected e,
        timerStarted := started, opInvoked := true, timerCleared := true }

/-- Breakers reachable from construction with options `o` by any interleaving
of manual `close`/`open` calls, the cool-down timer firing, and calls with
possible outcomes. -/
inductive Reaches (o : CircuitBreakerOptions) : CircuitBreaker → Prop where
  | init : Reaches o (CircuitBreaker.new o)
  | closeStep {cb : CircuitBreaker} : Reaches o cb → Reaches o cb.close
  | openStep {cb : CircuitBreaker} : Reaches o cb → Reaches o cb.open_
  | resetStep {cb : CircuitBreaker} : Reaches o cb → Reaches o cb.resetTimerFires
  | rotateStep {cb : CircuitBreaker} :
      Reaches o cb → Reaches o { cb with status := cb.status.nextBucket }
  | callStep {cb : CircuitBreaker} (outcome : CallOutcome) :
      validOutcome cb outcome = true → Reaches o cb → Reaches o (cb.call outcome).breaker

/-- Default construction options: everything absent. -/
def sampleOptions : CircuitBreakerOptions :=
  { timeout := .undef, resetTimeout := none, maxFailures := none, debug := none }

/-- Construction options with `timeout: false`. -/
def disabledOptions : CircuitBreakerOptions :=
  { timeout := .falseLit, resetTimeout := none, maxFailures := none, debug := none }

/-! ### Lemmas about the statistics window -/

theorem foldl_addBucket (l : List StatusBucket) (acc : StatusTotals) :
    l.foldl StatusTotals.addBucket acc =
      { failures := acc.failures + (l.map StatusBucket.failures).sum,
        successes := acc.successes + (l.map StatusBucket.successes).sum,
        rejects := acc.rejects + (l.map StatusBucket.rejects).sum,
        fires := acc.fires + (l.map StatusBucket.fires).sum,
        timeouts := acc.timeouts + (l.map StatusBucket.timeouts).sum } := by
  induction l generalizing acc with
  | nil => simp
  | cons b t ih =>
    simp only [List.foldl_cons, ih, List.map_cons, List.sum_cons,
      StatusTotals.addBucket, StatusTotals.mk.injEq]
    refine ⟨?_, ?_, ?_, ?_, ?_⟩ <;> omega

theorem Status.stats_eq_sums (s : Status) :
    s.stats =
      { failures := (s.window.map StatusBucket.failures).sum,
        successes := (s.window.map StatusBucket.successes).sum,
        rejects := (s.window.map StatusBucket.rejects).sum,
        fires := (s.window.map StatusBucket.fires).sum,
        timeouts := (s.window.map StatusBucket.timeouts).sum } := by
  simp [Status.stats, foldl_addBucket]

theorem Status.length_increment (s : Status) (k : EventKind) :
    (s.increment k).window.length = s.window.length := by
  obtain ⟨w⟩ := s
  cases w <;> simp [Status.increment]

theorem Status.increment_ne_nil (s : Status) (k : EventKind) (hw : s.window ≠ []) :
    (s.increment k).window ≠ [] := by
  obtain ⟨w⟩ := s
  cases w <;> simp_all [Status.increment]

theorem Status.stats_increment_failures (s : Status) (hw : s.window ≠ []) :
    (s.increment .failures).stats = { s.stats with failures := s.stats.failures + 1 } := by
  obtain ⟨w⟩ := s
  cases w with
  | nil => exact absurd rfl hw
  | cons b rest =>
    simp only [Status.increment, StatusBucket.incr, Status.stats_eq_sums,
      List.map_cons, List.sum_cons, StatusTotals.mk.injEq]
    exact ⟨by omega, trivial, trivial, trivial, trivial⟩

theorem Status.stats_increment_timeouts (s : Status) (hw : s.window ≠ []) :
    (s.increment .timeouts).stats = { s.stats with timeouts := s.stats.timeouts + 1 } := by
  obtain ⟨w⟩ := s
  cases w with
  | nil => exact absurd rfl hw
  | cons b rest =>
    simp only [Status.increment, StatusBucket.incr, Status.stats_eq_sums,
      List.map_cons, List.sum_cons, StatusTotals.mk.injEq]
    exact ⟨trivial, trivial, trivial, trivial, by omega⟩

theorem Status.stats_failures_increment (s : Status) (k : EventKind)
    (h : k ≠ .failures) : (s.increment k).stats.failures = s.stats.failures := by
  obtain ⟨w⟩ := s
  cases w with
  | nil => rfl
  | cons b rest =>
    cases k <;> simp_all [Status.increment, StatusBucket.incr, Status.stats_eq_sums]

theorem Status.stats_timeouts_increment (s : Status) (k : EventKind)
    (h : k ≠ .timeouts) : (s.increment k).stats.timeouts = s.stats.timeouts := by
  obtain ⟨w⟩ := s
  cases w with
  | nil => rfl
  | cons b rest =>
    cases k <;> simp_all [Status.increment, StatusBucket.incr, Status.stats_eq_sums]

theorem Status.stats_open (s : Status) : s.open_.stats = s.stats := by
  obtain ⟨w⟩ := s
  cases w <;> simp [Status.open_, Status.stats_eq_sums]

theorem Status.stats_close (s : Status) : s.close.stats = s.stats := by
  obtain ⟨w⟩ := s
  cases w <;> simp [Status.close, Status.stats_eq_sums]

theorem Status.length_open (s : Status) : s.open_.window.length = s.window.length := by
  obtain ⟨w⟩ := s
  cases w <;> simp [Status.open_]

theorem Status.length_close (s : Status) : s.close.window.length = s.window.length := by
  obtain ⟨w⟩ := s
  cases w <;> simp [Status.close]

/-! ### Lemmas about the breaker -/

theorem CircuitBreaker.emitFailure_state (cb : CircuitBreaker) :
    cb.emitFailure.state = cb.state := rfl

theorem CircuitBreaker.emitFailure_options (cb : CircuitBreaker) :
    cb.emitFailure.options = cb.options := rfl

theorem CircuitBreaker.emitFailure_stats_failures (cb : CircuitBreaker)
    (hw : cb.status.window ≠ []) :
    (cb.emitFailure.status.stats.failures : Int) = (cb.status.stats.failures : Int) + 1 := by
  simp [CircuitBreaker.emitFailure, Status.stats_increment_failures cb.status hw]

theorem CircuitBreaker.open_state_of_ne (cb : CircuitBreaker) (h : cb.state ≠ .OPEN) :
    cb.open_.state = .OPEN := by
  simp [CircuitBreaker.open_, h]

theorem CircuitBreaker.fail_of_below_threshold (cb : CircuitBreaker)
    (hs : cb.state = .CLOSED) (hw : cb.status.window ≠ [])
    (hlt : ¬ cb.options.maxFailures ≤ (cb.status.stats.failures : Int) + 1) :
    cb.fail = cb.emitFailure := by
  simp only [CircuitBreaker.fail]
  rw [if_neg]
  rintro (h | h)
  · rw [cb.emitFailure_options, cb.emitFailure_stats_failures hw] at h
    exact hlt h
  · rw [cb.emitFailure_state, hs] at h
    exact absurd h (by decide)

theorem CircuitBreaker.fail_iter_closed (n : ℕ) (cb : CircuitBreaker)
    (hs : cb.state = .CLOSED) (hw : cb.status.window ≠ [])
    (hb : (cb.status.stats.failures : Int) + n ≤ cb.options.maxFailures - 1) :
    (CircuitBreaker.fail^[n] cb).state = .CLOSED := by
  induction n generalizing cb with
  | zero => simpa using hs
  | succ n ih =>
    rw [Function.iterate_succ_apply]
    have hst := cb.emitFailure_stats_failures hw
    have hlt : ¬ cb.options.maxFailures ≤ (cb.status.stats.failures : Int) + 1 := by
      omega
    rw [cb.fail_of_below_threshold hs hw hlt]
    apply ih
    · exact hs
    · exact Status.increment_ne_nil cb.status .failures hw
    · rw [cb.emitFailure_options, hst]
      omega

/-! ### Claims -/

/-- C1: in the `Closed` state, a reported failure (`fail`) moves the breaker to
`Open` exactly when the windowed failure count including the failure just
recorded reaches or exceeds `options.maxFailures`, and otherwise leaves it
`Closed`; and from a freshly constructed breaker, any sequence of at most
`maxFailures - 1` recorded failures with no bucket rotation in between leaves
the breaker `Closed`. -/
theorem C1_closed_threshold :
    (∀ cb : CircuitBreaker, cb.state = .CLOSED → cb.status.window ≠ [] →
      (cb.fail.state = .OPEN ↔
        cb.options.maxFailures ≤ (cb.status.stats.failures : Int) + 1) ∧
      (cb.fail.state = .CLOSED ↔
        ¬ cb.options.maxFailures ≤ (cb.status.stats.failures : Int) + 1)) ∧
    (∀ (o : CircuitBreakerOptions) (n : ℕ),
      (n : Int) ≤ (populateOptions o).maxFailures - 1 →
      (CircuitBreaker.fail^[n] (CircuitBreaker.new o)).state = .CLOSED) := by
  constructor
  · intro cb hs hw
    have hst := cb.emitFailure_stats_failures hw
    by_cases hth : cb.options.maxFailures ≤ (cb.status.stats.failures : Int) + 1
    · have hfail : cb.fail = cb.emitFailure.open_ := by
        simp only [CircuitBreaker.fail]
        rw [if_pos]
        exact Or.inl (by rw [cb.emitFailure_options, hst]; exact hth)
      have hOpen : cb.fail.state = .OPEN := by
        rw [hfail]
        apply CircuitBreaker.open_state_of_ne
        rw [cb.emitFailure_state, hs]
        decide
      rw [hOpen]
      simp [hth]
    · rw [cb.fail_of_below_threshold hs hw hth, cb.emitFailure_state, hs]
      simp [hth]
  · intro o n hn
    apply CircuitBreaker.fail_iter_closed
    · rfl
    · simp [CircuitBreaker.new, Status.new]
    · have hz : (CircuitBreaker.new o).status.stats.failures = 0 := rfl
      rw [hz]
      have ho : (CircuitBreaker.new o).options = populateOptions o := rfl
      rw [ho]
      omega

/-- Witness for C1: with the default `maxFailures = 10`, the tenth recorded
failure opens the breaker and four failures leave it closed. -/
theorem C1_closed_threshold_witness :
    (CircuitBreaker.fail^[9] (CircuitBreaker.new sampleOptions)).fail.state = .OPEN ∧
    (CircuitBreaker.fail^[4] (CircuitBreaker.new sampleOptions)).state = .CLOSED := by
  constructor
  · exact (C1_closed_threshold.1
      (CircuitBreaker.fail^[9] (CircuitBreaker.new sampleOptions))
      (by decide) (by decide)).1.mpr (by decide)
  · exact C1_closed_threshold.2 sampleOptions 4 (by decide)

/-- C2: a call fired while the breaker is neither `Closed` nor `HalfOpen`
records a `fire` then a `reject` event, rejects with the `EOPENBREAKER`
error, never invokes the guarded operation, and leaves the breaker state and
the windowed failure count unchanged. -/
theorem C2_open_fast_fail (cb : CircuitBreaker) (h1 : cb.state ≠ .CLOSED)
    (h2 : cb.state ≠ .HALF_OPEN) (outcome : CallOutcome) :
    (cb.call outcome).breaker.events = cb.events ++ [.fire, .reject] ∧
    (cb.call outcome).result = .rejected .breakerOpen ∧
    (cb.call outcome).opInvoked = false ∧
    (cb.call outcome).timerStarted = false ∧
    (cb.call outcome).breaker.state = cb.state ∧
    (cb.call outcome).breaker.status.stats.failures = cb.status.stats.failures := by
  have hrej : cb.call outcome =
      { breaker := cb.emitFire.emitReject, result := .rejected .breakerOpen,
        timerStarted := false, opInvoked := false, timerCleared := false } := by
    simp only [CircuitBreaker.call]
    rw [if_pos]
    constructor
    · show ¬ cb.state = .CLOSED
      exact h1
    · show ¬ cb.state = .HALF_OPEN
      exact h2
  rw [hrej]
  refine ⟨?_, rfl, rfl, rfl, rfl, ?_⟩
  · simp [CircuitBreaker.emitFire, CircuitBreaker.emitReject]
  · show ((cb.status.increment .fires).increment .rejects).stats.failures
      = cb.status.stats.failures
    rw [Status.stats_failures_increment _ .rejects (by decide),
      Status.stats_failures_increment _ .fires (by decide)]

/-- Witness for C2: firing a manually opened fresh breaker is rejected
without invoking the operation or touching the failure count. -/
theorem C2_open_fast_fail_witness :
    (((CircuitBreaker.new sampleOptions).open_.call .opSuccess).breaker.events
      = (CircuitBreaker.new sampleOptions).open_.events ++ [.fire, .reject]) ∧
    ((CircuitBreaker.new sampleOptions).open_.call .opSuccess).result
      = .rejected .breakerOpen ∧
    ((CircuitBreaker.new sampleOptions).open_.call .opSuccess).opInvoked = false ∧
    ((CircuitBreaker.new sampleOptions).open_.call .opSuccess).timerStarted = false ∧
    ((CircuitBreaker.new sampleOptions).open_.call .opSuccess).breaker.state
      = (CircuitBreaker.new sampleOptions).open_.state ∧
    ((CircuitBreaker.new sampleOptions).open_.call .opSuccess).breaker.status.stats.failures
      = (CircuitBreaker.new sampleOptions).open_.status.stats.failures :=
  C2_open_fast_fail (CircuitBreaker.new sampleOptions).open_
    (by decide) (by decide) .opSuccess

theorem CircuitBreaker.call_permitted (cb : CircuitBreaker)
    (h : cb.state = .CLOSED ∨ cb.state = .HALF_OPEN) (outcome : CallOutcome) :
    cb.call outcome =
      (let cb2 : CircuitBreaker := { cb.emitFire with pendingClose := false }
       let started := cb2.options.timeout.truthy
       match outcome with
       | .opSuccess =>
         { breaker := cb2.emitSuccess, result := .resolved,
           timerStarted := started, opInvoked := true, timerCleared := true }
       | .opFailure e =>
         { breaker := cb2.fail, result := .rejected e,
           timerStarted := started, opInvoked := true, timerCleared := true }
       | .timeoutFirst _ =>
         { breaker := cb2.emitTimeout.fail, result := .rejected .timedOut,
           timerStarted := started, opInvoked := true, timerCleared := true }
       | .syncThrow e =>
         { breaker := cb2.fail, result := .rejected e,
           timerStarted := started, opInvoked := true, timerCleared := true }) := by
  simp only [CircuitBreaker.call]
  rw [if_neg]
  rintro ⟨hc, hh⟩
  rcases h with h | h
  · exact hc h
  · exact hh h

theorem CircuitBreaker.emitSuccess_halfOpen (cb : CircuitBreaker)
    (h : cb.state = .HALF_OPEN) : cb.emitSuccess.state = .CLOSED := by
  simp [CircuitBreaker.emitSuccess, CircuitBreaker.close, h]

theorem CircuitBreaker.fail_halfOpen (cb : CircuitBreaker)
    (h : cb.state = .HALF_OPEN) : cb.fail.state = .OPEN := by
  simp [CircuitBreaker.fail, CircuitBreaker.emitFailure, CircuitBreaker.open_, h]

/-- C3: when a call's outcome is handled while the breaker is `HalfOpen`, a
success closes the breaker, and any failure, synchronous throw or timeout
reopens it regardless of the windowed failure count. -/
theorem C3_half_open_outcomes (cb : CircuitBreaker) (h : cb.state = .HALF_OPEN) :
    (cb.call .opSuccess).breaker.state = .CLOSED ∧
    (∀ e : JSError, (cb.call (.opFailure e)).breaker.state = .OPEN) ∧
    (∀ e : JSError, (cb.call (.syncThrow e)).breaker.state = .OPEN) ∧
    (∀ late : Option Bool, (cb.call (.timeoutFirst late)).breaker.state = .OPEN) := by
  have hp : cb.state = .CLOSED ∨ cb.state = .HALF_OPEN := Or.inr h
  refine ⟨?_, ?_, ?_, ?_⟩
  · rw [cb.call_permitted hp .opSuccess]
    exact CircuitBreaker.emitSuccess_halfOpen _ h
  · intro e
    rw [cb.call_permitted hp (.opFailure e)]
    exact CircuitBreaker.fail_halfOpen _ h
  · intro e
    rw [cb.call_permitted hp (.syncThrow e)]
    exact CircuitBreaker.fail_halfOpen _ h
  · intro late
    rw [cb.call_permitted hp (.timeoutFirst late)]
    exact CircuitBreaker.fail_halfOpen _ h

/-- Witness for C3: after opening and then the cool-down firing, a successful
probe closes the breaker and a failing probe reopens it. -/
theorem C3_half_open_outcomes_witness :
    (((CircuitBreaker.new sampleOptions).open_.resetTimerFires.call
        .opSuccess).breaker.state = .CLOSED) ∧
    (((CircuitBreaker.new sampleOptions).open_.resetTimerFires.call
        (.opFailure (.external 0))).breaker.state = .OPEN) :=
  ⟨(C3_half_open_outcomes (CircuitBreaker.new sampleOptions).open_.resetTimerFires
      (by decide)).1,
   (C3_half_open_outcomes (CircuitBreaker.new sampleOptions).open_.resetTimerFires
      (by decide)).2.1 (.external 0)⟩

theorem CircuitBreaker.fail_events (cb : CircuitBreaker) :
    cb.fail.events = cb.events ++ [.failure] ∨
    cb.fail.events = cb.events ++ [.failure, .openEv] := by
  simp only [CircuitBreaker.fail]
  split_ifs with hc
  · simp only [CircuitBreaker.open_]
    split_ifs with ho
    · left
      simp [CircuitBreaker.emitFailure]
    · right
      simp [CircuitBreaker.emitFailure]
  · left
    simp [CircuitBreaker.emitFailure]

theorem CircuitBreaker.emitSuccess_events (cb : CircuitBreaker) :
    cb.emitSuccess.events = cb.events ++ [.success] ∨
    cb.emitSuccess.events = cb.events ++ [.success, .closeEv] := by
  simp only [CircuitBreaker.emitSuccess]
  split_ifs with hh
  · simp only [CircuitBreaker.close]
    split_ifs with hc
    · left
      simp
    · right
      simp [Status.close]
  · left
    simp

theorem CircuitBreaker.fail_stats_failures (cb : CircuitBreaker)
    (hw : cb.status.window ≠ []) :
    cb.fail.status.stats.failures = cb.status.stats.failures + 1 := by
  simp only [CircuitBreaker.fail]
  split_ifs with hc
  · simp only [CircuitBreaker.open_]
    split_ifs with ho
    · simp [CircuitBreaker.emitFailure, Status.stats_increment_failures _ hw]
    · simp [CircuitBreaker.emitFailure, Status.stats_open,
        Status.stats_increment_failures _ hw]
  · simp [CircuitBreaker.emitFailure, Status.stats_increment_failures _ hw]

theorem CircuitBreaker.fail_stats_timeouts (cb : CircuitBreaker) :
    cb.fail.status.stats.timeouts = cb.status.stats.timeouts := by
  simp only [CircuitBreaker.fail]
  split_ifs with hc
  · simp only [CircuitBreaker.open_]
    split_ifs with ho
    · simp [CircuitBreaker.emitFailure, Status.stats_timeouts_increment _ .failures]
    · simp [CircuitBreaker.emitFailure, Status.stats_open,
        Status.stats_timeouts_increment _ .failures]
  · simp [CircuitBreaker.emitFailure, Status.stats_timeouts_increment _ .failures]

theorem CircuitBreaker.fail_opens_iff (cb : CircuitBreaker)
    (hw : cb.status.window ≠ []) (hno : cb.state ≠ .OPEN) :
    cb.fail.state = .OPEN ↔
      (cb.options.maxFailures ≤ (cb.status.stats.failures : Int) + 1 ∨
        cb.state = .HALF_OPEN) := by
  have hst := cb.emitFailure_stats_failures hw
  simp only [CircuitBreaker.fail]
  split_ifs with hc
  · constructor
    · intro _
      rcases hc with hc | hc
      · left
        rw [cb.emitFailure_options, hst] at hc
        exact hc
      · right
        rw [cb.emitFailure_state] at hc
        exact hc
    · intro _
      apply CircuitBreaker.open_state_of_ne
      rw [cb.emitFailure_state]
      exact hno
  · constructor
    · intro hfs
      rw [cb.emitFailure_state] at hfs
      exact absurd hfs hno
    · intro hrule
      exfalso
      apply hc
      rcases hrule with hr | hr
      · left
        rw [cb.emitFailure_options, hst]
        exact hr
      · right
        rw [cb.emitFailure_state]
        exact hr

theorem CircuitBreaker.call_timeoutFirst (cb : CircuitBreaker)
    (h : cb.state = .CLOSED ∨ cb.state = .HALF_OPEN) (late : Option Bool) :
    cb.call (.timeoutFirst late) =
      { breaker := ({ cb.emitFire with pendingClose := false } : CircuitBreaker).emitTimeout.fail,
        result := .rejected .timedOut, timerStarted := cb.options.timeout.truthy,
        opInvoked := true, timerCleared := true } := by
  rw [cb.call_permitted h (.timeoutFirst late)]
  rfl

theorem CircuitBreaker.call_opSuccess (cb : CircuitBreaker)
    (h : cb.state = .CLOSED ∨ cb.state = .HALF_OPEN) :
    cb.call .opSuccess =
      { breaker := ({ cb.emitFire with pendingClose := false } : CircuitBreaker).emitSuccess,
        result := .resolved, timerStarted := cb.options.timeout.truthy,
        opInvoked := true, timerCleared := true } := by
  rw [cb.call_permitted h .opSuccess]
  rfl

theorem CircuitBreaker.call_opFailure (cb : CircuitBreaker)
    (h : cb.state = .CLOSED ∨ cb.state = .HALF_OPEN) (e : JSError) :
    cb.call (.opFailure e) =
      { breaker := ({ cb.emitFire with pendingClose := false } : CircuitBreaker).fail,
        result := .rejected e, timerStarted := cb.options.timeout.truthy,
        opInvoked := true, timerCleared := true } := by
  rw [cb.call_permitted h (.opFailure e)]
  rfl

theorem CircuitBreaker.call_syncThrow (cb : CircuitBreaker)
    (h : cb.state = .CLOSED ∨ cb.state = .HALF_OPEN) (e : JSError) :
    cb.call (.syncThrow e) =
      { breaker := ({ cb.emitFire with pendingClose := false } : CircuitBreaker).fail,
        result := .rejected e, timerStarted := cb.options.timeout.truthy,
        opInvoked := true, timerCleared := true } := by
  rw [cb.call_permitted h (.syncThrow e)]
  rfl

/-- C4: when the timeout clock fires before the operation settles, the call
records `fire`, then `timeout`, then `failure` (a distinct increment for
each of the two counters), evaluates the reopen/threshold rule, and rejects
with `ETIMEDOUT`; the operation's later settlement is suppressed (the call's
behaviour does not depend on it, and no `success` event is recorded for the
call), and conversely when the operation settles first no `timeout` event is
recorded for the call. -/
theorem C4_timeout_race (cb : CircuitBreaker)
    (h : cb.state = .CLOSED ∨ cb.state = .HALF_OPEN)
    (hw : cb.status.window ≠ []) (late late' : Option Bool) :
    ((cb.call (.timeoutFirst late)).breaker.events
        = cb.events ++ [.fire, .timeout, .failure] ∨
     (cb.call (.timeoutFirst late)).breaker.events
        = cb.events ++ [.fire, .timeout, .failure, .openEv]) ∧
    (cb.call (.timeoutFirst late)).breaker.status.stats.timeouts
        = cb.status.stats.timeouts + 1 ∧
    (cb.call (.timeoutFirst late)).breaker.status.stats.failures
        = cb.status.stats.failures + 1 ∧
    ((cb.call (.timeoutFirst late)).breaker.state = .OPEN ↔
      (cb.options.maxFailures ≤ (cb.status.stats.failures : Int) + 1 ∨
        cb.state = .HALF_OPEN)) ∧
    (cb.call (.timeoutFirst late)).result = .rejected .timedOut ∧
    CBEvent.success ∉ (cb.call (.timeoutFirst late)).breaker.events.drop cb.events.length ∧
    cb.call (.timeoutFirst late) = cb.call (.timeoutFirst late') ∧
    CBEvent.timeout ∉ (cb.call .opSuccess).breaker.events.drop cb.events.length ∧
    (∀ e : JSError,
      CBEvent.timeout ∉ (cb.call (.opFailure e)).breaker.events.drop cb.events.length) := by
  rw [cb.call_timeoutFirst h late, cb.call_opSuccess h]
  set cb3 : CircuitBreaker :=
    ({ cb.emitFire with pendingClose := false } : CircuitBreaker).emitTimeout with hcb3
  have hev3 : cb3.events = cb.events ++ [.fire, .timeout] := by
    simp [hcb3, CircuitBreaker.emitFire, CircuitBreaker.emitTimeout]
  have hs3 : cb3.state = cb.state := rfl
  have ho3 : cb3.options = cb.options := rfl
  have hw1 : (cb.status.increment .fires).window ≠ [] :=
    Status.increment_ne_nil _ _ hw
  have hw3 : cb3.status.window ≠ [] := Status.increment_ne_nil _ _ hw1
  have hfail3 : cb3.status.stats.failures = cb.status.stats.failures := by
    show ((cb.status.increment .fires).increment .timeouts).stats.failures
        = cb.status.stats.failures
    rw [Status.stats_failures_increment _ .timeouts (by decide),
      Status.stats_failures_increment _ .fires (by decide)]
  have htime3 : cb3.status.stats.timeouts = cb.status.stats.timeouts + 1 := by
    show ((cb.status.increment .fires).increment .timeouts).stats.timeouts
        = cb.status.stats.timeouts + 1
    rw [Status.stats_increment_timeouts _ hw1]
    simp [Status.stats_timeouts_increment _ .fires]
  have hEv : cb3.fail.events = cb.events ++ [.fire, .timeout, .failure] ∨
      cb3.fail.events = cb.events ++ [.fire, .timeout, .failure, .openEv] := by
    rcases cb3.fail_events with hfe | hfe <;> rw [hfe, hev3] <;> simp
  refine ⟨hEv, ?_, ?_, ?_, rfl, ?_, ?_, ?_, ?_⟩
  · rw [cb3.fail_stats_timeouts, htime3]
  · rw [cb3.fail_stats_failures hw3, hfail3]
  · rw [cb3.fail_opens_iff hw3 (by rw [hs3]; rcases h with h | h <;> rw [h] <;> decide),
      ho3, hfail3, hs3]
  · rcases hEv with hfe | hfe <;> rw [hfe] <;> simp
  · rw [cb.call_timeoutFirst h late']
  · rcases ({ cb.emitFire with pendingClose := false } :
        CircuitBreaker).emitSuccess_events with hse | hse <;>
      · rw [hse]
        show CBEvent.timeout ∉ ((cb.events ++ [CBEvent.fire]) ++ _).drop cb.events.length
        simp
  · intro e
    rw [cb.call_opFailure h e]
    rcases ({ cb.emitFire with pendingClose := false } :
        CircuitBreaker).fail_events with hfe | hfe <;>
      · rw [hfe]
        show CBEvent.timeout ∉ ((cb.events ++ [CBEvent.fire]) ++ _).drop cb.events.length
        simp

/-- Witness for C4: on a fresh breaker a timed-out call rejects with
`ETIMEDOUT` and bumps both the timeout and failure counters. -/
theorem C4_timeout_race_witness :
    ((CircuitBreaker.new sampleOptions).call (.timeoutFirst (some true))).result
      = .rejected .timedOut ∧
    ((CircuitBreaker.new sampleOptions).call
        (.timeoutFirst (some true))).breaker.status.stats.timeouts
      = (CircuitBreaker.new sampleOptions).status.stats.timeouts + 1 ∧
    ((CircuitBreaker.new sampleOptions).call
        (.timeoutFirst (some true))).breaker.status.stats.failures
      = (CircuitBreaker.new sampleOptions).status.stats.failures + 1 :=
  ⟨(C4_timeout_race (CircuitBreaker.new sampleOptions) (Or.inl rfl) (by decide)
      (some true) none).2.2.2.2.1,
   (C4_timeout_race (CircuitBreaker.new sampleOptions) (Or.inl rfl) (by decide)
      (some true) none).2.1,
   (C4_timeout_race (CircuitBreaker.new sampleOptions) (Or.inl rfl) (by decide)
      (some true) none).2.2.1⟩

/-- C5: `close()` on an already-closed breaker and `open()` on an
already-open breaker are exact no-ops (no field change, no notification, no
timer change); from any other state they perform the transition and append
exactly one notification naming the new state. -/
theorem C5_manual_idempotent (cb : CircuitBreaker) :
    (cb.state = .CLOSED → cb.close = cb) ∧
    (cb.state = .OPEN → cb.open_ = cb) ∧
    (cb.state ≠ .CLOSED →
      cb.close.events = cb.events ++ [.closeEv] ∧ cb.close.state = .CLOSED ∧
      cb.close.resetTimerArmed = false) ∧
    (cb.state ≠ .OPEN →
      cb.open_.events = cb.events ++ [.openEv] ∧ cb.open_.state = .OPEN ∧
      cb.open_.resetTimerArmed = true) := by
  refine ⟨?_, ?_, ?_, ?_⟩
  · intro h
    simp [CircuitBreaker.close, h]
  · intro h
    simp [CircuitBreaker.open_, h]
  · intro h
    simp [CircuitBreaker.close, h]
  · intro h
    simp [CircuitBreaker.open_, h]

/-- Witness for C5: on a fresh breaker, `close` is a no-op, a second `open`
after an `open` is a no-op, and the first `open` emits exactly the `open`
notification. -/
theorem C5_manual_idempotent_witness :
    (CircuitBreaker.new sampleOptions).close = CircuitBreaker.new sampleOptions ∧
    (CircuitBreaker.new sampleOptions).open_.open_
      = (CircuitBreaker.new sampleOptions).open_ ∧
    (CircuitBreaker.new sampleOptions).open_.events
      = (CircuitBreaker.new sampleOptions).events ++ [.openEv] :=
  ⟨(C5_manual_idempotent (CircuitBreaker.new sampleOptions)).1 rfl,
   (C5_manual_idempotent (CircuitBreaker.new sampleOptions).open_).2.1 (by decide),
   ((C5_manual_idempotent (CircuitBreaker.new sampleOptions)).2.2.2 (by decide)).1⟩

theorem dropLast_append_ne_nil {α : Type} (A B : List α) (hB : B ≠ []) :
    (A ++ B).dropLast = A ++ B.dropLast := by
  obtain ⟨b, B', rfl⟩ : ∃ b B', B = B' ++ [b] :=
    ⟨B.getLast hB, B.dropLast, (List.dropLast_append_getLast hB).symm⟩
  rw [← List.append_assoc, List.dropLast_concat, List.dropLast_concat]

theorem Status.rotate_window (s : Status) (n : ℕ) (hn : n ≤ s.window.length) :
    (Status.nextBucket^[n] s).window =
      List.replicate n Status.emptyBucket ++ s.window.take (s.window.length - n) := by
  induction n with
  | zero => simp
  | succ n ih =>
    have hn' : n ≤ s.window.length := Nat.le_of_succ_le hn
    rw [Function.iterate_succ_apply']
    show Status.emptyBucket :: ((Status.nextBucket^[n] s).window).dropLast = _
    rw [ih hn']
    have hB : s.window.take (s.window.length - n) ≠ [] := by
      intro hnil
      have hlen := congrArg List.length hnil
      rw [List.length_take] at hlen
      simp at hlen
      omega
    rw [dropLast_append_ne_nil _ _ hB]
    have hlenB : (s.window.take (s.window.length - n)).length = s.window.length - n := by
      rw [List.length_take]
      omega
    rw [List.dropLast_eq_take, hlenB, List.take_take]
    have hmin : min (s.window.length - n - 1) (s.window.length - n)
        = s.window.length - (n + 1) := by omega
    rw [hmin, List.replicate_succ, List.cons_append]

theorem Status.length_nextBucket (s : Status) (hw : s.window ≠ []) :
    s.nextBucket.window.length = s.window.length := by
  have hpos : 0 < s.window.length := List.length_pos.mpr hw
  simp [Status.nextBucket, List.length_dropLast]
  omega

theorem Status.length_iterate_nextBucket (k : ℕ) (s : Status) (hw : s.window ≠ []) :
    (Status.nextBucket^[k] s).window.length = s.window.length := by
  induction k generalizing s with
  | zero => rfl
  | succ k ih =>
    rw [Function.iterate_succ_apply]
    rw [ih s.nextBucket (by simp [Status.nextBucket])]
    exact Status.length_nextBucket s hw

theorem Status.stats_after_rotations (s : Status) (n : ℕ)
    (hlen : s.window.length = 10) (hn : 10 ≤ n) :
    (Status.nextBucket^[n] s).stats =
      { failures := 0, successes := 0, rejects := 0, fires := 0, timeouts := 0 } := by
  obtain ⟨k, rfl⟩ : ∃ k, n = 10 + k := ⟨n - 10, by omega⟩
  have hwne : s.window ≠ [] := by
    intro hnil
    rw [hnil] at hlen
    simp at hlen
  have hk : (Status.nextBucket^[k] s).window.length = 10 := by
    rw [Status.length_iterate_nextBucket k s hwne]
    exact hlen
  rw [Function.iterate_add_apply]
  have hwin := Status.rotate_window (Status.nextBucket^[k] s) 10 (by rw [hk])
  rw [hk] at hwin
  rw [Status.stats_eq_sums, hwin]
  simp [Status.emptyBucket]

/-- C6: `stats` is the field-wise sum of the five counters over the buckets
of the window; `nextBucket` preserves the window length; and after at least
a full window of rotations (10, the fixed bucket count) every previously
recorded count has been evicted, so `stats` is zero. -/
theorem C6_stats_rolling_window :
    (∀ s : Status,
      s.stats.fires = (s.window.map StatusBucket.fires).sum ∧
      s.stats.successes = (s.window.map StatusBucket.successes).sum ∧
      s.stats.failures = (s.window.map StatusBucket.failures).sum ∧
      s.stats.rejects = (s.window.map StatusBucket.rejects).sum ∧
      s.stats.timeouts = (s.window.map StatusBucket.timeouts).sum) ∧
    (∀ s : Status, s.window ≠ [] →
      s.nextBucket.window.length = s.window.length) ∧
    (∀ (s : Status) (n : ℕ), s.window.length = 10 → 10 ≤ n →
      (Status.nextBucket^[n] s).stats =
        { failures := 0, successes := 0, rejects := 0, fires := 0, timeouts := 0 }) := by
  refine ⟨?_, Status.length_nextBucket, Status.stats_after_rotations⟩
  intro s
  rw [Status.stats_eq_sums]
  exact ⟨rfl, rfl, rfl, rfl, rfl⟩

/-- Witness for C6: on a window holding one recorded failure, `stats` sums
the buckets, rotation preserves the length 10, and 12 rotations clear it. -/
theorem C6_stats_rolling_window_witness :
    (Status.new.increment .failures).stats.failures
      = ((Status.new.increment .failures).window.map StatusBucket.failures).sum ∧
    (Status.new.increment .failures).nextBucket.window.length
      = (Status.new.increment .failures).window.length ∧
    (Status.nextBucket^[12] (Status.new.increment .failures)).stats
      = { failures := 0, successes := 0, rejects := 0, fires := 0, timeouts := 0 } :=
  ⟨(C6_stats_rolling_window.1 (Status.new.increment .failures)).2.2.1,
   C6_stats_rolling_window.2.1 (Status.new.increment .failures) (by decide),
   C6_stats_rolling_window.2.2 (Status.new.increment .failures) 12 (by decide) (by decide)⟩

theorem CircuitBreaker.close_options (cb : CircuitBreaker) :
    cb.close.options = cb.options := by
  simp only [CircuitBreaker.close]
  split_ifs <;> rfl

theorem CircuitBreaker.open_options (cb : CircuitBreaker) :
    cb.open_.options = cb.options := by
  simp only [CircuitBreaker.open_]
  split_ifs <;> rfl

theorem CircuitBreaker.fail_options (cb : CircuitBreaker) :
    cb.fail.options = cb.options := by
  simp only [CircuitBreaker.fail]
  split_ifs with h
  · rw [CircuitBreaker.open_options]
    rfl
  · rfl

theorem CircuitBreaker.emitSuccess_options (cb : CircuitBreaker) :
    cb.emitSuccess.options = cb.options := by
  simp only [CircuitBreaker.emitSuccess]
  split_ifs with h
  · rw [CircuitBreaker.close_options]
  · rfl

theorem CircuitBreaker.call_options (cb : CircuitBreaker) (o : CallOutcome) :
    (cb.call o).breaker.options = cb.options := by
  simp only [CircuitBreaker.call]
  split_ifs with h
  · rfl
  · cases o with
    | opSuccess => exact CircuitBreaker.emitSuccess_options _
    | opFailure e => exact CircuitBreaker.fail_options _
    | timeoutFirst late => exact CircuitBreaker.fail_options _
    | syncThrow e => exact CircuitBreaker.fail_options _

theorem Reaches.options_eq {o : CircuitBreakerOptions} {cb : CircuitBreaker}
    (h : Reaches o cb) : cb.options = populateOptions o := by
  induction h with
  | init => rfl
  | closeStep _ ih =>
    rw [CircuitBreaker.close_options]
    exact ih
  | openStep _ ih =>
    rw [CircuitBreaker.open_options]
    exact ih
  | resetStep _ ih => exact ih
  | rotateStep _ ih => exact ih
  | callStep outcome hv _ ih =>
    rw [CircuitBreaker.call_options]
    exact ih

theorem CircuitBreaker.close_events (cb : CircuitBreaker) :
    cb.close.events = cb.events ∨ cb.close.events = cb.events ++ [.closeEv] := by
  simp only [CircuitBreaker.close]
  split_ifs
  · left
    rfl
  · right
    rfl

theorem CircuitBreaker.open_events (cb : CircuitBreaker) :
    cb.open_.events = cb.events ∨ cb.open_.events = cb.events ++ [.openEv] := by
  simp only [CircuitBreaker.open_]
  split_ifs
  · left
    rfl
  · right
    rfl

theorem CircuitBreaker.close_stats_timeouts (cb : CircuitBreaker) :
    cb.close.status.stats.timeouts = cb.status.stats.timeouts := by
  simp only [CircuitBreaker.close]
  split_ifs
  · rfl
  · simp [Status.stats_close]

theorem CircuitBreaker.open_stats_timeouts (cb : CircuitBreaker) :
    cb.open_.status.stats.timeouts = cb.status.stats.timeouts := by
  simp only [CircuitBreaker.open_]
  split_ifs
  · rfl
  · simp [Status.stats_open]

theorem CircuitBreaker.emitSuccess_stats_timeouts (cb : CircuitBreaker) :
    cb.emitSuccess.status.stats.timeouts = cb.status.stats.timeouts := by
  simp only [CircuitBreaker.emitSuccess]
  split_ifs
  · rw [CircuitBreaker.close_stats_timeouts]
    simp [Status.stats_timeouts_increment _ .successes]
  · simp [Status.stats_timeouts_increment _ .successes]

theorem Status.nextBucket_timeouts_zero (s : Status) (h : s.stats.timeouts = 0) :
    s.nextBucket.stats.timeouts = 0 := by
  rw [Status.stats_eq_sums] at h ⊢
  simp only at h ⊢
  have hall : ∀ b ∈ s.window, b.timeouts = 0 := by
    intro b hb
    exact List.sum_eq_zero_iff.mp h (b.timeouts) (List.mem_map_of_mem _ hb)
  apply List.sum_eq_zero
  intro x hx
  rcases List.mem_map.mp hx with ⟨b, hb, rfl⟩
  rcases List.mem_cons.mp hb with hb | hb
  · rw [hb]
    rfl
  · exact hall b (List.dropLast_subset s.window hb)

theorem not_mem_append_of {x : CBEvent} {l l2 : List CBEvent}
    (hl : x ∉ l) (h2 : x ∉ l2) : x ∉ l ++ l2 := by
  intro hmem
  rcases List.mem_append.mp hmem with hm | hm
  · exact hl hm
  · exact h2 hm

theorem CircuitBreaker.call_rejected (cb : CircuitBreaker)
    (h1 : cb.state ≠ .CLOSED) (h2 : cb.state ≠ .HALF_OPEN) (outcome : CallOutcome) :
    cb.call outcome =
      { breaker := cb.emitFire.emitReject, result := .rejected .breakerOpen,
        timerStarted := false, opInvoked := false, timerCleared := false } := by
  simp only [CircuitBreaker.call]
  rw [if_pos]
  exact ⟨h1, h2⟩

theorem Reaches.no_timeout_of_disabled {o : CircuitBreakerOptions} {cb : CircuitBreaker}
    (hto : o.timeout = .falseLit) (h : Reaches o cb) :
    CBEvent.timeout ∉ cb.events ∧ cb.status.stats.timeouts = 0 := by
  induction h with
  | init => exact ⟨by simp [CircuitBreaker.new], rfl⟩
  | closeStep hr ih =>
    rename_i cb'
    refine ⟨?_, ?_⟩
    · rcases cb'.close_events with he | he
      · rw [he]
        exact ih.1
      · rw [he]
        exact not_mem_append_of ih.1 (by decide)
    · rw [cb'.close_stats_timeouts]
      exact ih.2
  | openStep hr ih =>
    rename_i cb'
    refine ⟨?_, ?_⟩
    · rcases cb'.open_events with he | he
      · rw [he]
        exact ih.1
      · rw [he]
        exact not_mem_append_of ih.1 (by decide)
    · rw [cb'.open_stats_timeouts]
      exact ih.2
  | resetStep hr ih =>
    rename_i cb'
    constructor
    · show CBEvent.timeout ∉ cb'.events ++ [CBEvent.halfOpen]
      exact not_mem_append_of ih.1 (by decide)
    · exact ih.2
  | rotateStep hr ih =>
    rename_i cb'
    exact ⟨ih.1, Status.nextBucket_timeouts_zero cb'.status ih.2⟩
  | callStep outcome hv hr ih =>
    rename_i cb'
    have hdis : cb'.options.timeout = .disabled := by
      rw [hr.options_eq]
      simp [populateOptions, hto]
    by_cases hgate : cb'.state = .CLOSED ∨ cb'.state = .HALF_OPEN
    · cases outcome with
      | opSuccess =>
        rw [cb'.call_opSuccess hgate]
        constructor
        · rcases CircuitBreaker.emitSuccess_events
            ({ cb'.emitFire with pendingClose := false }) with he | he
          · rw [he]
            show CBEvent.timeout ∉ (cb'.events ++ [CBEvent.fire]) ++ [CBEvent.success]
            exact not_mem_append_of (not_mem_append_of ih.1 (by decide)) (by decide)
          · rw [he]
            show CBEvent.timeout ∉
              (cb'.events ++ [CBEvent.fire]) ++ [CBEvent.success, CBEvent.closeEv]
            exact not_mem_append_of (not_mem_append_of ih.1 (by decide)) (by decide)
        · rw [CircuitBreaker.emitSuccess_stats_timeouts]
          show (cb'.status.increment .fires).stats.timeouts = 0
          rw [Status.stats_timeouts_increment _ .fires (by decide)]
          exact ih.2
      | opFailure e =>
        rw [cb'.call_opFailure hgate e]
        constructor
        · rcases CircuitBreaker.fail_events
            ({ cb'.emitFire with pendingClose := false }) with he | he
          · rw [he]
            show CBEvent.timeout ∉ (cb'.events ++ [CBEvent.fire]) ++ [CBEvent.failure]
            exact not_mem_append_of (not_mem_append_of ih.1 (by decide)) (by decide)
          · rw [he]
            show CBEvent.timeout ∉
              (cb'.events ++ [CBEvent.fire]) ++ [CBEvent.failure, CBEvent.openEv]
            exact not_mem_append_of (not_mem_append_of ih.1 (by decide)) (by decide)
        · rw [CircuitBreaker.fail_stats_timeouts]
          show (cb'.status.increment .fires).stats.timeouts = 0
          rw [Status.stats_timeouts_increment _ .fires (by decide)]
          exact ih.2
      | timeoutFirst late =>
        exfalso
        simp [validOutcome, hdis, TimeoutSetting.truthy] at hv
      | syncThrow e =>
        rw [cb'.call_syncThrow hgate e]
        constructor
        · rcases CircuitBreaker.fail_events
            ({ cb'.emitFire with pendingClose := false }) with he | he
          · rw [he]
            show CBEvent.timeout ∉ (cb'.events ++ [CBEvent.fire]) ++ [CBEvent.failure]
            exact not_mem_append_of (not_mem_append_of ih.1 (by decide)) (by decide)
          · rw [he]
            show CBEvent.timeout ∉
              (cb'.events ++ [CBEvent.fire]) ++ [CBEvent.failure, CBEvent.openEv]
            exact not_mem_append_of (not_mem_append_of ih.1 (by decide)) (by decide)
        · rw [CircuitBreaker.fail_stats_timeouts]
          show (cb'.status.increment .fires).stats.timeouts = 0
          rw [Status.stats_timeouts_increment _ .fires (by decide)]
          exact ih.2
    · have h1 : cb'.state ≠ .CLOSED := fun hc => hgate (Or.inl hc)
      have h2 : cb'.state ≠ .HALF_OPEN := fun hc => hgate (Or.inr hc)
      rw [cb'.call_rejected h1 h2 outcome]
      constructor
      · show CBEvent.timeout ∉ (cb'.events ++ [CBEvent.fire]) ++ [CBEvent.reject]
        exact not_mem_append_of (not_mem_append_of ih.1 (by decide)) (by decide)
      · show ((cb'.status.increment .fires).increment .rejects).stats.timeouts = 0
        rw [Status.stats_timeouts_increment _ .rejects (by decide),
          Status.stats_timeouts_increment _ .fires (by decide)]
        exact ih.2

/-- C7: for a breaker constructed with `timeout: false`, in every reachable
state no `timeout` event has been recorded and the windowed timeout count is
zero; and for every call with a possible outcome the timeout clock is never
started, no `timeout` event is recorded, and when the call is permitted its
only terminal outcomes are the operation's own success or failure (with the
operation's error passed through). -/
theorem C7_disabled_timeout (o : CircuitBreakerOptions) (hto : o.timeout = .falseLit)
    (cb : CircuitBreaker) (hr : Reaches o cb) (outcome : CallOutcome)
    (hv : validOutcome cb outcome = true) :
    CBEvent.timeout ∉ cb.events ∧ cb.status.stats.timeouts = 0 ∧
    (cb.call outcome).timerStarted = false ∧
    CBEvent.timeout ∉ (cb.call outcome).breaker.events ∧
    ((cb.state = .CLOSED ∨ cb.state = .HALF_OPEN) →
      ((cb.call outcome).result = .resolved ∧ outcome = .opSuccess) ∨
      (∃ e : JSError, (cb.call outcome).result = .rejected e ∧
        (outcome = .opFailure e ∨ outcome = .syncThrow e))) := by
  have hdis : cb.options.timeout = .disabled := by
    rw [hr.options_eq]
    simp [populateOptions, hto]
  have hinv := Reaches.no_timeout_of_disabled hto hr
  have hinv2 := Reaches.no_timeout_of_disabled hto (Reaches.callStep outcome hv hr)
  refine ⟨hinv.1, hinv.2, ?_, hinv2.1, ?_⟩
  · by_cases hgate : cb.state = .CLOSED ∨ cb.state = .HALF_OPEN
    · cases outcome with
      | opSuccess =>
        rw [cb.call_opSuccess hgate]
        show cb.options.timeout.truthy = false
        rw [hdis]
        rfl
      | opFailure e =>
        rw [cb.call_opFailure hgate e]
        show cb.options.timeout.truthy = false
        rw [hdis]
        rfl
      | timeoutFirst late =>
        exfalso
        simp [validOutcome, hdis, TimeoutSetting.truthy] at hv
      | syncThrow e =>
        rw [cb.call_syncThrow hgate e]
        show cb.options.timeout.truthy = false
        rw [hdis]
        rfl
    · have h1 : cb.state ≠ .CLOSED := fun hc => hgate (Or.inl hc)
      have h2 : cb.state ≠ .HALF_OPEN := fun hc => hgate (Or.inr hc)
      rw [cb.call_rejected h1 h2 outcome]
  · intro hgate
    cases outcome with
    | opSuccess =>
      left
      exact ⟨by rw [cb.call_opSuccess hgate], rfl⟩
    | opFailure e =>
      right
      exact ⟨e, by rw [cb.call_opFailure hgate e], Or.inl rfl⟩
    | timeoutFirst late =>
      exfalso
      simp [validOutcome, hdis, TimeoutSetting.truthy] at hv
    | syncThrow e =>
      right
      exact ⟨e, by rw [cb.call_syncThrow hgate e], Or.inr rfl⟩

/-- Witness for C7: a fresh breaker built with `timeout: false` starts no
timeout clock on a successful call and records no `timeout` event. -/
theorem C7_disabled_timeout_witness :
    ((CircuitBreaker.new disabledOptions).call .opSuccess).timerStarted = false ∧
    CBEvent.timeout ∉ ((CircuitBreaker.new disabledOptions).call .opSuccess).breaker.events :=
  ⟨(C7_disabled_timeout disabledOptions rfl (CircuitBreaker.new disabledOptions)
      Reaches.init .opSuccess rfl).2.2.1,
   (C7_disabled_timeout disabledOptions rfl (CircuitBreaker.new disabledOptions)
      Reaches.init .opSuccess rfl).2.2.2.1⟩

/-- C8 counterexample: a breaker constructed without a `resetTimeout` option
gets an effective `resetTimeout` of 30000 ms, not the claimed 10000 ms. -/
theorem C8_reset_timeout_counterexample :
    (CircuitBreaker.new sampleOptions).options.resetTimeout = 30000 ∧
    ¬ (CircuitBreaker.new sampleOptions).options.resetTimeout = 10000 := by
  constructor
  · rfl
  · decide

/-- C8 (amended): a breaker constructed without a `resetTimeout` option has
an effective `resetTimeout` of 30000 milliseconds. -/
theorem C8_reset_timeout_default (o : CircuitBreakerOptions)
    (h : o.resetTimeout = none) :
    (CircuitBreaker.new o).options.resetTimeout = 30000 := by
  show (populateOptions o).resetTimeout = 30000
  simp [populateOptions, h]

/-- Witness for the amended C8. -/
theorem C8_reset_timeout_default_witness :
    (CircuitBreaker.new sampleOptions).options.resetTimeout = 30000 :=
  C8_reset_timeout_default sampleOptions rfl

/-- C9 counterexample: `maxFailures: 0` is falsy and not the literal `false`,
yet the constructor keeps it (0 is an integer) instead of substituting the
default 10 — refuting the claim that every falsy non-`false` option value is
replaced by its default. -/
theorem C9_counterexample :
    (populateOptions
      { timeout := .undef, resetTimeout := none,
        maxFailures := some (.num 0), debug := none }).maxFailures = 0 ∧
    (JSNum.num 0).truthy = false ∧
    ¬ (populateOptions
      { timeout := .undef, resetTimeout := none,
        maxFailures := some (.num 0), debug := none }).maxFailures = 10 := by
  refine ⟨?_, ?_, ?_⟩ <;> decide

/-- C9 (amended): `timeout: 0` (and every falsy non-`false` timeout) becomes
the default 10000; a falsy `resetTimeout` becomes the default 30000; a
non-integer `maxFailures` becomes the default 10, while any integer
`maxFailures` — including the falsy 0 — is kept. -/
theorem C9_option_population (o : CircuitBreakerOptions) :
    (∀ v : JSNum, o.timeout = .num v → v.truthy = false →
      (populateOptions o).timeout = .ms 10000) ∧
    (o.timeout = .undef → (populateOptions o).timeout = .ms 10000) ∧
    (∀ v : JSNum, o.resetTimeout = some v → v.truthy = false →
      (populateOptions o).resetTimeout = 30000) ∧
    (o.resetTimeout = none → (populateOptions o).resetTimeout = 30000) ∧
    (∀ v : JSNum, o.maxFailures = some v → v.isInteger = false →
      (populateOptions o).maxFailures = 10) ∧
    (o.maxFailures = none → (populateOptions o).maxFailures = 10) ∧
    (∀ v : JSNum, o.maxFailures = some v → v.isInteger = true →
      (populateOptions o).maxFailures = v.toInt) := by
  refine ⟨?_, ?_, ?_, ?_, ?_, ?_, ?_⟩
  · intro v h1 h2
    simp [populateOptions, h1, h2]
  · intro h1
    simp [populateOptions, h1]
  · intro v h1 h2
    simp [populateOptions, h1, h2]
  · intro h1
    simp [populateOptions, h1]
  · intro v h1 h2
    simp [populateOptions, h1, h2]
  · intro h1
    simp [populateOptions, h1]
  · intro v h1 h2
    simp [populateOptions, h1, h2]

/-- Witness for the amended C9: `timeout: 0` and `resetTimeout: 0` get the
defaults while `maxFailures: 0` is kept as 0. -/
theorem C9_option_population_witness :
    (populateOptions
      { timeout := .num (.num 0), resetTimeout := some (.num 0),
        maxFailures := some (.num 0), debug := none }).timeout = .ms 10000 ∧
    (populateOptions
      { timeout := .num (.num 0), resetTimeout := some (.num 0),
        maxFailures := some (.num 0), debug := none }).resetTimeout = 30000 ∧
    (populateOptions
      { timeout := .num (.num 0), resetTimeout := some (.num 0),
        maxFailures := some (.num 0), debug := none }).maxFailures = 0 := by
  refine ⟨?_, ?_, ?_⟩
  · exact (C9_option_population _).1 (.num 0) rfl (by decide)
  · exact (C9_option_population _).2.2.1 (.num 0) rfl (by decide)
  · rw [(C9_option_population _).2.2.2.2.2.2 (.num 0) rfl (by decide)]
    decide

/-- C10: a synchronous throw of the guarded action is handled exactly like an
asynchronous failure — the call result is literally the same, the per-call
timeout clock is cleared, a `failure` is recorded, the threshold/half-open
reopen rule is evaluated, and the caller sees the thrown error unchanged. -/
theorem C10_sync_throw (cb : CircuitBreaker)
    (h : cb.state = .CLOSED ∨ cb.state = .HALF_OPEN)
    (hw : cb.status.window ≠ []) (e : JSError) :
    cb.call (.syncThrow e) = cb.call (.opFailure e) ∧
    (cb.call (.syncThrow e)).timerCleared = true ∧
    (cb.call (.syncThrow e)).result = .rejected e ∧
    (cb.call (.syncThrow e)).breaker.status.stats.failures
      = cb.status.stats.failures + 1 ∧
    ((cb.call (.syncThrow e)).breaker.state = .OPEN ↔
      (cb.options.maxFailures ≤ (cb.status.stats.failures : Int) + 1 ∨
        cb.state = .HALF_OPEN)) := by
  rw [cb.call_syncThrow h e, cb.call_opFailure h e]
  set cb2 : CircuitBreaker := { cb.emitFire with pendingClose := false } with hcb2
  have hw2 : cb2.status.window ≠ [] := Status.increment_ne_nil _ _ hw
  have hf2 : cb2.status.stats.failures = cb.status.stats.failures := by
    show (cb.status.increment .fires).stats.failures = _
    rw [Status.stats_failures_increment _ .fires (by decide)]
  have ho2 : cb2.options = cb.options := rfl
  have hs2 : cb2.state = cb.state := rfl
  refine ⟨rfl, rfl, rfl, ?_, ?_⟩
  · rw [cb2.fail_stats_failures hw2, hf2]
  · rw [cb2.fail_opens_iff hw2 (by rw [hs2]; rcases h with h | h <;> rw [h] <;> decide),
      ho2, hs2, hf2]

/-- Witness for C10: on a fresh breaker a synchronous throw and an
asynchronous rejection with the same error produce identical call returns,
and the thrown error is passed through. -/
theorem C10_sync_throw_witness :
    (CircuitBreaker.new sampleOptions).call (.syncThrow (.external 7))
      = (CircuitBreaker.new sampleOptions).call (.opFailure (.external 7)) ∧
    ((CircuitBreaker.new sampleOptions).call (.syncThrow (.external 7))).result
      = .rejected (.external 7) :=
  ⟨(C10_sync_throw (CircuitBreaker.new sampleOptions) (Or.inl rfl) (by decide)
      (.external 7)).1,
   (C10_sync_throw (CircuitBreaker.new sampleOptions) (Or.inl rfl) (by decide)
      (.external 7)).2.2.1⟩
